import Mathlib

/-!
Verification of the OpenKarotz on-device HTTP API (Python/FastAPI) against
its natural-language specification.

The Python sources under `api/` are shallowly embedded: the filesystem is an
explicit state record (`FS`), external program invocation is a function from
argument vectors to outcomes (`World`), and every Python handler becomes a
pure Lean function threading that state.  Python strings are Lean `String`s,
Python ints are `Int`/`Nat`, `None`-able values are `Option`s, raised
exceptions are `Except` errors.
-/

set_option maxRecDepth 10000

/-! ## Python string primitives

Executable embeddings of the Python string operations used by the sources:
`str.strip`, `str.startswith`, `str.endswith`, substring membership (`in`),
`str.replace(pat, '')` for the one pattern the code uses (`".rfid"`),
whitespace `str.split()`, `str.split('\n')` and `int(...)` parsing. -/

/-- Python whitespace characters (the ASCII ones `str.strip`/`str.split` use). -/
def pyWs (c : Char) : Bool :=
  c == ' ' || c == '\t' || c == '\n' || c == '\r' || c == '\x0b' || c == '\x0c'

/-- Python `str.strip()`: drop leading and trailing whitespace. -/
def pyStrip (s : String) : String :=
  ⟨((s.data.dropWhile pyWs).reverse.dropWhile pyWs).reverse⟩

/-- Python `needle in hay` on strings (substring test), over character lists. -/
def hasSubstr (pat : List Char) : List Char → Bool
  | [] => pat.isPrefixOf ([] : List Char)
  | c :: cs => pat.isPrefixOf (c :: cs) || hasSubstr pat cs

/-- Python `needle in hay` on `String`s. -/
def hasSubstrS (needle hay : String) : Bool :=
  hasSubstr needle.data hay.data

/-- Python `s.startswith(p)`. -/
def pyStartsWith (s p : String) : Bool :=
  p.data.isPrefixOf s.data

/-- Python `s.endswith(p)`. -/
def pyEndsWith (s p : String) : Bool :=
  p.data.isSuffixOf s.data

/-- The character list of the extension `".rfid"`. -/
def rfidExt : List Char := ['.', 'r', 'f', 'i', 'd']

/-- Python `s.replace(".rfid", "")` on character lists: left-to-right scan
removing every (non-overlapping) occurrence of `".rfid"`. -/
def stripRfid : List Char → List Char
  | '.' :: 'r' :: 'f' :: 'i' :: 'd' :: rest => stripRfid rest
  | c :: cs => c :: stripRfid cs
  | [] => []

/-- Python `s.replace(".rfid", "")` on `String`s. -/
def stripRfidS (s : String) : String := ⟨stripRfid s.data⟩

/-- Numeric value of a digit run (caller guarantees the characters are digits),
as produced by Python `int` on a `\d+` regex group. -/
def digitsVal (l : List Char) : Nat :=
  l.foldl (fun a c => a * 10 + (c.toNat - 48)) 0

/-- Python `int(s)` on an already-stripped string: optional sign followed by
at least one digit; anything else raises `ValueError` (here: `none`). -/
def pyInt? (s : String) : Option Int :=
  let digits? : List Char → Option Nat := fun ds =>
    if ds ≠ [] && ds.all Char.isDigit then some (digitsVal ds) else none
  match s.data with
  | '+' :: ds => (digits? ds).map Int.ofNat
  | '-' :: ds => (digits? ds).map (fun n => -(n : Int))
  | ds => (digits? ds).map Int.ofNat

/-- Python `s.split('\n')` on character lists. -/
def splitOnNl : List Char → List (List Char)
  | [] => [[]]
  | '\n' :: cs => [] :: splitOnNl cs
  | c :: cs =>
    match splitOnNl cs with
    | [] => [[c]]
    | l :: ls => (c :: l) :: ls

/-- `output.strip().split('\n')[-1]`: the last line of the stripped output
(the split of a string is never empty, so Python's `[-1]` never fails). -/
def lastLine (s : String) : String :=
  ⟨((splitOnNl (pyStrip s).data).getLast?).getD []⟩

/-- Worker for Python whitespace `str.split()`: `cur` is the current token,
reversed. -/
def splitWsAux (cur : List Char) : List Char → List (List Char)
  | [] => if cur = [] then [] else [cur.reverse]
  | c :: cs =>
    if pyWs c then
      if cur = [] then splitWsAux [] cs else cur.reverse :: splitWsAux [] cs
    else splitWsAux (c :: cur) cs

/-- Python `s.split()` (split on whitespace runs, no empty tokens). -/
def pySplitWs (s : String) : List String :=
  (splitWsAux [] s.data).map (fun l => ⟨l⟩)

/-- `re.search(r'(\d+)%', s)`: the digit group of the leftmost maximal digit
run that is immediately followed by `'%'` (the regex's backtracking can only
succeed on a maximal run, since `'%'` is not a digit). -/
def rePercentGroup : List Char → Option (List Char)
  | [] => none
  | c :: cs =>
    if c.isDigit then
      match (c :: cs).dropWhile Char.isDigit with
      | '%' :: _ => some ((c :: cs).takeWhile Char.isDigit)
      | _ => rePercentGroup cs
    else rePercentGroup cs

/-! ## Filesystem and process state

A `FPath` is a `(directory, filename)` pair: every path the API touches is a
file directly inside one flat directory, so this structured form captures
`os.path.join(dir, name)` exactly.  `FS` is the device filesystem visible to
the API: regular files with contents, the set of existing directories, the
set of active mount points, and `os.statvfs` data per path (modelled as
`some (free_bytes, total_bytes)`, i.e. `f_bavail*f_frsize` and
`f_blocks*f_frsize`, or `none` when `statvfs` would raise `OSError`). -/

abbrev FPath := String × String

structure FS where
  files : List (FPath × String)
  dirs : List String
  mounts : List String
  statvfs : String → Option (Nat × Nat)

/-- Raw contents of a file, `none` when the path does not exist. -/
def FS.lookupFile (fs : FS) (p : FPath) : Option String :=
  (fs.files.find? (fun e => e.1 == p)).map (fun e => e.2)

/-- `os.path.exists` (for the file paths the API checks). -/
def FS.existsFile (fs : FS) (p : FPath) : Bool :=
  (fs.lookupFile p).isSome

/-- `os.path.isdir`. -/
def FS.isDir (fs : FS) (d : String) : Bool :=
  fs.dirs.contains d

/-- `os.path.ismount`. -/
def FS.isMount (fs : FS) (d : String) : Bool :=
  fs.mounts.contains d

/-- `os.remove` (on a file path). -/
def FS.removeFile (fs : FS) (p : FPath) : FS :=
  { fs with files := fs.files.filter (fun e => !(e.1 == p)) }

/-- Plain `open(path, 'w'); f.write(content)`: overwrite the file, no
directory creation (`main.py` writes this way). -/
def FS.plainWrite (fs : FS) (p : FPath) (content : String) : FS :=
  { fs with files := (p, content) :: fs.files.filter (fun e => !(e.1 == p)) }

/-- An empty filesystem, used for concrete test states. -/
def emptyFS : FS := ⟨[], [], [], fun _ => none⟩

/-! ## External commands (`subprocess.run`)

A `World` fixes, for each argument vector, what the external program would
do: exit with a code and output streams, be absent (`FileNotFoundError`
carrying the binary name), or raise some other exception. -/

inductive CmdOutcome where
  | exited (code : Nat) (stdout stderr : String)
  | notFound (filename : String)
  | raised (msg : String)
deriving DecidableEq

abbrev World := List String → CmdOutcome

/-! ## `api/core/utils.py` -/

/-- `utils.get_file_content(path)` with the declared `default=None`:
read and strip the contents, or return the (optional) default. -/
def get_file_content (fs : FS) (p : FPath) (default : Option String) : Option String :=
  if fs.existsFile p then (fs.lookupFile p).map pyStrip else default

/-- `utils.get_file_content(path, "0")`-style call sites, where the default
is a plain string and the result is therefore always a string. -/
def get_file_contentD (fs : FS) (p : FPath) (default : String) : String :=
  ((get_file_content fs p (some default)).getD default)

/-- `utils.write_file_content`: `os.makedirs(dirname, exist_ok=True)` then
overwrite the file. -/
def write_file_content (fs : FS) (p : FPath) (content : String) : FS :=
  { files := (p, content) :: fs.files.filter (fun e => !(e.1 == p)),
    dirs := if fs.dirs.contains p.1 then fs.dirs else p.1 :: fs.dirs,
    mounts := fs.mounts,
    statvfs := fs.statvfs }

/-- `utils.get_dir_file_count`: number of regular files directly inside the
directory, `0` if it is not a directory. -/
def get_dir_file_count (fs : FS) (d : String) : Nat :=
  if fs.isDir d then (fs.files.filter (fun e => e.1.1 == d)).length else 0

/-- `utils.get_mac_address` (and the identical helper in `main.py`): read
`/sys/class/net/<iface>/address`, defaulting to the all-zero MAC. -/
def get_mac_address (fs : FS) (iface : String) : String :=
  get_file_contentD fs ("/sys/class/net/" ++ iface, "address") "00:00:00:00:00:00"

/-- `utils.run_command`: argument-vector `subprocess.run(check=True,
capture_output=True, text=True)` with every exception caught.
Exit 0 → `(true, stripped stdout)`; non-zero exit → `(false, stripped
stderr)`; missing binary → `(false, "Command not found: <file>")`; any other
exception → `(false, str(e))`.  Total by construction: it never raises. -/
def run_command (w : World) (command : List String) : Bool × String :=
  match w command with
  | .exited 0 out _ => (true, pyStrip out)
  | .exited _ _ err => (false, pyStrip err)
  | .notFound fn => (false, "Command not found: " ++ fn)
  | .raised msg => (false, msg)

/-- `utils.kill_process`: `killall <name>`, logging an error unless the
failure output contains "no process found".  The Python function returns
only `success`; the second component here records the error log line that
the call emits (`none` when the failure is absorbed silently). -/
def kill_process (w : World) (name : String) : Bool × Option String :=
  let r := run_command w ["killall", name]
  if !r.1 && !(hasSubstrS "no process found" r.2) then
    (r.1, some ("Failed to kill process '" ++ name ++ "': " ++ r.2))
  else
    (r.1, none)

/-! ## `api/core/config.py` path constants -/

def DATA_DIR : String := "/usr/karotz/data"
def WWW_DIR : String := "/www"
def RUN_DIR : String := DATA_DIR ++ "/Run"
def TMP_DIR : String := DATA_DIR ++ "/Tmp"
def RFID_DIR : String := DATA_DIR ++ "/Rfid"
def MOODS_DIR : String := DATA_DIR ++ "/Moods"
def SOUNDS_DIR : String := DATA_DIR ++ "/Sounds"
def STORIES_DIR : String := DATA_DIR ++ "/Stories"
def OK_VERSION_FILE : FPath := (WWW_DIR, "ok.version")
def OK_PATCH_FILE : FPath := (WWW_DIR, "ok_patch")
def LED_COLOR_FILE : FPath := (RUN_DIR, "led.color")
def LED_PULSE_FILE : FPath := (RUN_DIR, "led.pulse")
def EARS_DISABLED_FILE : FPath := (RUN_DIR, "ears.disabled")
def KAROTZ_SLEEP_FILE : FPath := (RUN_DIR, "karotz.sleep")
def KAROTZ_TIME_SLEEP_FILE : FPath := (RUN_DIR, "karotz.time.sleep")
def DEFAULT_LED_COLOR : String := "00FF00"

/-! ## `api/main.py`

The legacy-compatible app: the status endpoint, the LED and ears endpoints,
and the reboot/sleep placeholders, exactly the functions the MCP dispatcher
in `api/mcp.py` calls.  HTTP exceptions are an `Except` error carrying the
status code and detail. -/

deriving instance DecidableEq for Except

structure HttpExc where
  status_code : Nat
  detail : String
deriving DecidableEq

structure KarotzStatus where
  version : String
  patch : String
  ears_disabled : String
  sleep : String
  sleep_time : String
  led_color : String
  led_pulse : String
  tts_cache_size : Nat
  usb_free_space : String
  karotz_free_space : String
  eth_mac : String
  wlan_mac : String
  nb_tags : Nat
  nb_moods : Nat
  nb_sounds : Nat
  nb_stories : Nat
  karotz_percent_used_space : String
  usb_percent_used_space : String
  data_dir : String
deriving DecidableEq

structure LedAction where
  color : String
  color2 : Option String := none
  pulse : Bool := false
  blink : Bool := false
  nomemory : Bool := false
  speed : Int := 700
deriving DecidableEq

structure EarsAction where
  left : Option Int := none
  right : Option Int := none
  reset : Bool := false
deriving DecidableEq

structure ActionResponse where
  return_code : String
  message : String
deriving DecidableEq

/-- `main.get_file_content(path, default="0")`: same accessor as the one in
`utils.py` but with the string default `"0"` baked in. -/
def main_get_file_content (fs : FS) (p : FPath) (default : String := "0") : String :=
  if fs.existsFile p then ((fs.lookupFile p).map pyStrip).getD default else default

/-- `f"{bytes / (1024*1024):.0f}M"`, the primary-storage free-space string.
The float formatting is modelled by exact integer division; no claim depends
on the rounding of this display string. -/
def fmtM (bytes : Nat) : String :=
  toString (bytes / (1024 * 1024)) ++ "M"

/-- `f"{bytes / (1024*1024*1024):.1f}G"`, the USB free-space string, modelled
with one truncated decimal; no claim depends on the rounding. -/
def fmtG (bytes : Nat) : String :=
  let d := bytes * 10 / (1024 * 1024 * 1024)
  toString (d / 10) ++ "." ++ toString (d % 10) ++ "G"

/-- Percentage `int(((total - free) / total) * 100) if total > 0 else 0`,
modelled in exact integer arithmetic (the float quotient truncates the same
way for the magnitudes involved; no claim depends on the exact value). -/
def usedPercent (free total : Nat) : Nat :=
  if total > 0 then (total - free) * 100 / total else 0

/-- `main.get_status`: the status endpoint of `main.py`.  `os.statvfs('/usr')`
raising `OSError` (path absent) is the `.error` case; the USB block runs only
when `/mnt/usbkey` is a mount point, otherwise both USB fields are the
sentinel `"-1"`. -/
def main_get_status (fs : FS) : Except String KarotzStatus :=
  match fs.statvfs "/usr" with
  | none => .error "statvfs failed: /usr"
  | some (kfsFree, kfsTotal) =>
    let usb : Except String (String × String) :=
      if fs.isMount "/mnt/usbkey" then
        match fs.statvfs "/mnt/usbkey" with
        | none => .error "statvfs failed: /mnt/usbkey"
        | some (uFree, uTotal) => .ok (fmtG uFree, toString (usedPercent uFree uTotal))
      else .ok ("-1", "-1")
    match usb with
    | .error e => .error e
    | .ok (ufsFree, ufsUsedPercent) =>
      .ok {
        version := main_get_file_content fs OK_VERSION_FILE,
        patch := main_get_file_content fs (WWW_DIR, "ok_patch"),
        ears_disabled := if fs.existsFile EARS_DISABLED_FILE then "1" else "0",
        sleep := if fs.existsFile KAROTZ_SLEEP_FILE then "1" else "0",
        sleep_time := main_get_file_content fs KAROTZ_TIME_SLEEP_FILE,
        led_color := main_get_file_content fs LED_COLOR_FILE DEFAULT_LED_COLOR,
        led_pulse := main_get_file_content fs LED_PULSE_FILE,
        tts_cache_size := get_dir_file_count fs TMP_DIR,
        usb_free_space := ufsFree,
        karotz_free_space := fmtM kfsFree,
        eth_mac := get_mac_address fs "eth0",
        wlan_mac := get_mac_address fs "wlan0",
        nb_tags := get_dir_file_count fs RFID_DIR,
        nb_moods := get_dir_file_count fs (MOODS_DIR ++ "/fr"),
        nb_sounds := get_dir_file_count fs SOUNDS_DIR,
        nb_stories := get_dir_file_count fs STORIES_DIR,
        karotz_percent_used_space := toString (usedPercent kfsFree kfsTotal),
        usb_percent_used_space := ufsUsedPercent,
        data_dir := DATA_DIR }

/-- `main.set_led`: reject `pulse ∧ blink` with a 400 before any side effect;
otherwise persist the color to `Run/led.color` unless `nomemory`.  The state
is returned alongside the result so that a raised `HTTPException` visibly
leaves the filesystem untouched. -/
def set_led (fs : FS) (action : LedAction) : Except HttpExc ActionResponse × FS :=
  if action.pulse && action.blink then
    (.error ⟨400, "Cannot use 'blink' and 'pulse' at the same time."⟩, fs)
  else
    let fs' := if !action.nomemory then FS.plainWrite fs LED_COLOR_FILE action.color else fs
    (.ok ⟨"0", "LED command received."⟩, fs')

/-- `main.set_ears`: placeholder that always succeeds. -/
def set_ears (_fs : FS) (_action : EarsAction) : Except HttpExc ActionResponse :=
  .ok ⟨"0", "Ears command received."⟩

/-- `main.reboot_device`: placeholder that always succeeds. -/
def reboot_device : Except HttpExc ActionResponse :=
  .ok ⟨"0", "Reboot command sent successfully."⟩

/-- `main.sleep_device`: placeholder that always succeeds. -/
def sleep_device : Except HttpExc ActionResponse :=
  .ok ⟨"0", "Sleep command sent successfully."⟩

/-! ## `api/mcp.py`

The batching "agent" dispatcher.  An incoming action is a JSON object
`{"type": ..., "params": {...}}`; `Params` carries the fields that the two
parameterised actions (`leds.set`, `ears.set`) accept, each optional, which
is what a JSON params mapping provides.  Converting params into a typed
pydantic model fails exactly when a required field is missing. -/

structure Params where
  color : Option String := none
  color2 : Option String := none
  pulse : Option Bool := none
  blink : Option Bool := none
  nomemory : Option Bool := none
  speed : Option Int := none
  left : Option Int := none
  right : Option Int := none
  reset : Option Bool := none
deriving DecidableEq

/-- No parameters given (`action_data.get("params", {})` on an absent key). -/
def noParams : Params := {}

structure ActionData where
  type : Option String
  params : Params
deriving DecidableEq

/-- `karotz_api.LedAction(**params)`: pydantic validation; `color` is the
only required field.  The error text stands in for pydantic's message for a
missing required field; no claim depends on its exact wording. -/
def LedAction.ofParams (p : Params) : Except String LedAction :=
  match p.color with
  | none => .error "1 validation error for LedAction: color: field required"
  | some c =>
    .ok { color := c, color2 := p.color2, pulse := p.pulse.getD false,
          blink := p.blink.getD false, nomemory := p.nomemory.getD false,
          speed := p.speed.getD 700 }

/-- `karotz_api.EarsAction(**params)`: every field is optional, so the
conversion always succeeds. -/
def EarsAction.ofParams (p : Params) : EarsAction :=
  { left := p.left, right := p.right, reset := p.reset.getD false }

/-- The payload of a successful action: either the status snapshot or a
plain action response. -/
inductive RespData where
  | statusData (s : KarotzStatus)
  | actionData (r : ActionResponse)
deriving DecidableEq

/-- The uniform result envelope the dispatcher produces for every action. -/
structure ActionResult where
  action : Option String
  status : String
  data : Option RespData := none
  details : Option String := none
deriving DecidableEq

/-- `f"Unknown action type: {action_type}"` renders Python `None` as the
string `"None"`. -/
def optTypeStr : Option String → String
  | some t => t
  | none => "None"

/-- A success envelope. -/
def successResult (t : Option String) (d : RespData) : ActionResult :=
  { action := t, status := "success", data := some d }

/-- An error envelope (`details` carries the exception's detail/message). -/
def errorResult (t : Option String) (msg : String) : ActionResult :=
  { action := t, status := "error", details := some msg }

/-- `mcp.execute_karotz_action`: dispatch one `{type, params}` descriptor to
the matching `main.py` function.  A raised `HTTPException` (unknown type,
LED conflict) and any other exception (pydantic validation) are caught and
returned as error envelopes.  The filesystem state threads through; every
error branch returns it unchanged. -/
def execute_karotz_action (fs : FS) (a : ActionData) : ActionResult × FS :=
  let t := a.type
  if t = some "status.get" then
    match main_get_status fs with
    | .ok s => (successResult t (.statusData s), fs)
    | .error e => (errorResult t e, fs)
  else if t = some "leds.set" then
    match LedAction.ofParams a.params with
    | .error e => (errorResult t e, fs)
    | .ok la =>
      match set_led fs la with
      | (.ok r, fs') => (successResult t (.actionData r), fs')
      | (.error h, fs') => (errorResult t h.detail, fs')
  else if t = some "ears.set" then
    match set_ears fs (EarsAction.ofParams a.params) with
    | .ok r => (successResult t (.actionData r), fs)
    | .error h => (errorResult t h.detail, fs)
  else if t = some "device.reboot" then
    match reboot_device with
    | .ok r => (successResult t (.actionData r), fs)
    | .error h => (errorResult t h.detail, fs)
  else if t = some "device.sleep" then
    match sleep_device with
    | .ok r => (successResult t (.actionData r), fs)
    | .error h => (errorResult t h.detail, fs)
  else
    (errorResult t ("Unknown action type: " ++ optTypeStr t), fs)

/-- `mcp.handle_mcp_request`: run the actions strictly in order, threading
the device state, and collect one result envelope per action. -/
def handle_mcp_request (fs : FS) : List ActionData → List ActionResult × FS
  | [] => ([], fs)
  | a :: rest =>
    let r := execute_karotz_action fs a
    let rs := handle_mcp_request r.2 rest
    (r.1 :: rs.1, rs.2)

/-- The device state after the dispatcher has processed a list of actions. -/
def mcp_state_after (fs : FS) (actions : List ActionData) : FS :=
  (handle_mcp_request fs actions).2

/-! ## `api/routers/system.py` -/

structure SystemStatus where
  version : String
  patch : String
  ears_disabled : Bool
  sleep_active : Bool
  sleep_time_remaining : Int
  led_color : String
  led_is_pulsing : Bool
  mac_address_eth : String
  mac_address_wlan : String
  storage_karotz_used_percent : Int
  storage_usb_used_percent : Int
  storage_karotz_free_space : String
  storage_usb_free_space : String
  count_tts_cache : Nat
  count_rfid_tags : Nat
  count_moods : Nat
  count_sounds : Nat
  count_stories : Nat
deriving DecidableEq

/-- `system.get_disk_usage`: `df` twice over one path.  Not a mount point and
not a directory → immediate `(-1, "-1")`.  A failed `df` leaves the sentinel
for that half.  A successful `df -Ph` whose last line has fewer than four
whitespace-separated fields raises `IndexError` (the `.error` case), which
the caller's `try` block turns into a 500. -/
def get_disk_usage (w : World) (fs : FS) (path : String) : Except String (Int × String) :=
  if !(fs.isMount path) && !(fs.isDir path) then .ok (-1, "-1")
  else
    let r1 := run_command w ["df", path]
    let percent_used : Int :=
      if r1.1 then
        match rePercentGroup (lastLine r1.2).data with
        | some ds => Int.ofNat (digitsVal ds)
        | none => -1
      else -1
    let r2 := run_command w ["df", "-Ph", path]
    if r2.1 then
      match (pySplitWs (lastLine r2.2))[3]? with
      | some free => .ok (percent_used, free)
      | none => .error "IndexError: list index out of range"
    else .ok (percent_used, "-1")

/-- The body of `system.get_status`'s `try` block: both disk-usage queries
and every field computation; `int(...)` on the sleep-time file contents is
the one field parse that can raise (`ValueError`). -/
def system_get_status_body (w : World) (fs : FS) : Except String SystemStatus := do
  let ku ← get_disk_usage w fs "/usr"
  let uu ← get_disk_usage w fs "/mnt/usbkey"
  let sleepSecs ←
    match pyInt? (get_file_contentD fs KAROTZ_TIME_SLEEP_FILE "0") with
    | some n => Except.ok n
    | none => Except.error "ValueError: invalid literal for int()"
  .ok {
    version := get_file_contentD fs OK_VERSION_FILE "0",
    patch := get_file_contentD fs OK_PATCH_FILE "0",
    ears_disabled := fs.existsFile EARS_DISABLED_FILE,
    sleep_active := fs.existsFile KAROTZ_SLEEP_FILE,
    sleep_time_remaining := sleepSecs,
    led_color := get_file_contentD fs LED_COLOR_FILE DEFAULT_LED_COLOR,
    led_is_pulsing := get_file_contentD fs LED_PULSE_FILE "0" = "1",
    mac_address_eth := get_mac_address fs "eth0",
    mac_address_wlan := get_mac_address fs "wlan0",
    storage_karotz_used_percent := ku.1,
    storage_usb_used_percent := uu.1,
    storage_karotz_free_space := ku.2,
    storage_usb_free_space := uu.2,
    count_tts_cache := get_dir_file_count fs TMP_DIR,
    count_rfid_tags := get_dir_file_count fs RFID_DIR,
    count_moods := get_dir_file_count fs (MOODS_DIR ++ "/fr"),
    count_sounds := get_dir_file_count fs SOUNDS_DIR,
    count_stories := get_dir_file_count fs STORIES_DIR }

/-- `system.get_status`: the whole aggregation runs inside one `try`; any
exception in it becomes a single 500 for the whole request. -/
def system_get_status (w : World) (fs : FS) : Except HttpExc SystemStatus :=
  match system_get_status_body w fs with
  | .ok s => .ok s
  | .error _ => .error ⟨500, "Failed to retrieve system status."⟩

/-! ## `api/routers/rfid.py` -/

structure RfidTag where
  tag_id : String
  name : Option String := none
  color : Option String := none
  action_type : Option String := none
  action_url : Option String := none
  karotz_action : Option String := none
deriving DecidableEq

inductive AssignType where
  | url
  | karotz_action
  | eedomus
  | vera
  | zibase
deriving DecidableEq

def AssignType.str : AssignType → String
  | .url => "url"
  | .karotz_action => "karotz_action"
  | .eedomus => "eedomus"
  | .vera => "vera"
  | .zibase => "zibase"

structure RfidAssignment where
  action_type : AssignType
  value : String
  secondary_value : Option String := none
deriving DecidableEq

/-- Python truthiness of an optional string (`None` and `""` are falsy). -/
def pyTruthy : Option String → Bool
  | none => false
  | some s => s ≠ ""

/-- `s.startswith("http")` lifted to the optional string. -/
def optStartsWithHttp : Option String → Bool
  | none => false
  | some s => pyStartsWith s "http"

/-- `rfid.parse_rfid_file`: read the three sibling files of a tag;
`action_type` is `"url"` exactly when the `.rfid` contents are truthy and
start with `"http"`, and `"karotz_action"` otherwise. -/
def parse_rfid_file (fs : FS) (tag_id : String) : RfidTag :=
  let name := get_file_content fs (RFID_DIR, tag_id ++ ".name") (some ("Tag " ++ tag_id))
  let color := get_file_content fs (RFID_DIR, tag_id ++ ".color") (some "grey")
  let action_raw := get_file_content fs (RFID_DIR, tag_id ++ ".rfid") none
  let action_type := if pyTruthy action_raw && optStartsWithHttp action_raw
                     then "url" else "karotz_action"
  { tag_id := tag_id,
    name := name,
    color := color,
    action_type := some action_type,
    action_url := if action_type = "url" then action_raw else none,
    karotz_action := if action_type = "karotz_action" then action_raw else none }

/-- `os.listdir` restricted to regular files (the RFID directory holds only
the per-tag files). -/
def FS.listdir (fs : FS) (d : String) : List String :=
  (fs.files.filter (fun e => e.1.1 == d)).map (fun e => e.1.2)

/-- `rfid.list_rfid_tags`: tag ids are the directory entries ending in
`.rfid` with that extension removed (by Python's replace-all), each parsed
into a listing record. -/
def list_rfid_tags (fs : FS) : List RfidTag :=
  if !(fs.isDir RFID_DIR) then []
  else
    let tag_ids := ((fs.listdir RFID_DIR).filter (fun f => pyEndsWith f ".rfid")).map stripRfidS
    tag_ids.map (parse_rfid_file fs)

/-- `rfid.assign_action_to_tag`: write the assignment's value into
`<id>.rfid` and answer with a success message naming the declared type. -/
def assign_action_to_tag (fs : FS) (tag_id : String) (assignment : RfidAssignment) :
    String × FS :=
  ("Action '" ++ assignment.action_type.str ++ "' assigned to tag " ++ tag_id ++ ".",
   write_file_content fs (RFID_DIR, tag_id ++ ".rfid") assignment.value)

/-- `if os.path.exists(path): os.remove(path)` — one step of the delete
loop. -/
def removeIfExists (fs : FS) (p : FPath) : FS :=
  if fs.existsFile p then fs.removeFile p else fs

/-- `rfid.unassign_and_delete_tag`: remove each of the three sibling files
that is present, then answer with a success message unconditionally. -/
def unassign_and_delete_tag (fs : FS) (tag_id : String) : String × FS :=
  let fs1 := removeIfExists fs (RFID_DIR, tag_id ++ ".rfid")
  let fs2 := removeIfExists fs1 (RFID_DIR, tag_id ++ ".name")
  let fs3 := removeIfExists fs2 (RFID_DIR, tag_id ++ ".color")
  ("Tag " ++ tag_id ++ " has been deleted.", fs3)

/-! ## `api/routers/tts.py` -/

structure TtsRequest where
  text : String
  voice : String
  nocache : Bool := false
deriving DecidableEq

/-- Stand-in for Python's builtin `hash` on strings; the embedding relies
only on it being a deterministic function of the text (which is the property
under scrutiny: the voice is not part of the key). -/
def pyHash (s : String) : Nat :=
  s.data.foldl (fun a c => (a * 31 + c.toNat) % (2 ^ 64)) 0

/-- `cache_path = os.path.join(config.TMP_DIR, f"{hash(request.text)}.mp3")`,
the cache key computed by `tts.generate_speech`. -/
def tts_cache_path (request : TtsRequest) : FPath :=
  (TMP_DIR, toString (pyHash request.text) ++ ".mp3")

/-- `voice_map.get(request.voice, "en-US")`. -/
def voice_lang (voice : String) : String :=
  if voice = "alice" then "en-US"
  else if voice = "bob" then "en-GB"
  else if voice = "claire" then "fr-FR"
  else "en-US"

/-- The wave file `pico2wave` leaves at the cache path (content opaque to
the API; synthesised here from the engine's inputs). -/
def ttsWave (lang text : String) : String :=
  "wav:" ++ lang ++ ":" ++ text

/-- `tts.generate_speech`: regenerate when `nocache` or the cache file is
absent (on success the wave file appears at the cache path), then play the
cache file; each failed external command is a 500. -/
def generate_speech (w : World) (fs : FS) (request : TtsRequest) :
    Except HttpExc String × FS :=
  let cache_path := tts_cache_path request
  let pathArg := TMP_DIR ++ "/" ++ cache_path.2
  let gen : Except HttpExc FS :=
    if request.nocache || !(fs.existsFile cache_path) then
      let lang := voice_lang request.voice
      let g := run_command w ["pico2wave", "--wave", pathArg, "-l", lang, request.text]
      if g.1 then .ok (write_file_content fs cache_path (ttsWave lang request.text))
      else .error ⟨500, "TTS generation failed: " ++ g.2⟩
    else .ok fs
  match gen with
  | .error e => (.error e, fs)
  | .ok fs1 =>
    let p := run_command w ["/usr/bin/mplayer", pathArg]
    if p.1 then (.ok "Speech generation and playback initiated.", fs1)
    else (.error ⟨500, "Playback failed: " ++ p.2⟩, fs1)

/-! ## `api/routers/media.py` (playback control) -/

inductive PlayCmd where
  | pause
  | stop
  | quit
  | resume
deriving DecidableEq

def PlayCmd.str : PlayCmd → String
  | .pause => "pause"
  | .stop => "stop"
  | .quit => "quit"
  | .resume => "resume"

/-- `media.control_sound_playback`: kill the player for `stop`/`quit`
(result ignored), then answer with the success message unconditionally.
The second component records the `kill_process` invocation's observable
outcome (`none` when no kill was attempted). -/
def control_sound_playback (w : World) (command : PlayCmd) :
    String × Option (Bool × Option String) :=
  let killResult :=
    if command = PlayCmd.stop ∨ command = PlayCmd.quit
    then some (kill_process w "mplayer") else none
  ("Playback " ++ command.str ++ " command sent.", killResult)

/-! ## Concrete fixture states and worlds used by the example theorems -/

/-- A world where every external command succeeds with empty output. -/
def wQuiet : World := fun _ => .exited 0 "" ""

/-- A world with realistic `df` behaviour: both `df` forms succeed and report
a 50%-used, 50M-free filesystem for any path. -/
def wGood : World := fun args =>
  match args with
  | ["df", "-Ph", _] =>
    .exited 0 "Filesystem Size Used Avail Use% Mounted on\n/dev/root 100M 50M 50M 50% /" ""
  | ["df", _] =>
    .exited 0 "Filesystem 1K-blocks Used Available Use% Mounted on\n/dev/root 100 50 50 50% /" ""
  | _ => .exited 0 "" ""

/-- A world where every `df` invocation exits non-zero. -/
def wDfFail : World := fun args =>
  match args with
  | "df" :: _ => .exited 1 "" ""
  | _ => .exited 0 "" ""

/-- A world where `killall` reports that no process was found. -/
def wNoProc : World := fun _ => .exited 1 "" "mplayer: no process found\n"

/-- A healthy device state: `/usr` mounted with statistics, a numeric
sleep-time file, no USB key. -/
def fs0 : FS :=
  { files := [((RUN_DIR, "karotz.time.sleep"), "120"), ((WWW_DIR, "ok.version"), "2.0")],
    dirs := ["/usr", WWW_DIR, RUN_DIR],
    mounts := [],
    statvfs := fun p => if p = "/usr" then some (1048576, 2097152) else none }

/-- `fs0` with non-numeric contents in the sleep-time file. -/
def fsBad : FS :=
  { fs0 with files := [((RUN_DIR, "karotz.time.sleep"), "abc"), ((WWW_DIR, "ok.version"), "2.0")] }

/-- `fs0` with `/mnt/usbkey` existing as a directory but not mounted. -/
def fsU : FS :=
  { fs0 with dirs := ["/usr", "/mnt/usbkey", WWW_DIR, RUN_DIR] }

/-- The spec's example batch: a good action, a bogus one, a good one. -/
def exampleBatch : List ActionData :=
  [⟨some "status.get", noParams⟩, ⟨some "bogus", noParams⟩, ⟨some "device.sleep", noParams⟩]

/-! ## Claim theorems -/

/-- Claim C4: for every argument-vector command, the Command Runner returns
`(true, trimmed stdout)` on exit code 0, `(false, trimmed stderr)` on a
non-zero exit, and `(false, descriptive message)` when the binary is not
found — and in every case it returns normally (a total function, never an
exception). -/
theorem run_command_total_contract :
    ∀ (w : World) (command : List String),
      (∀ out err, w command = CmdOutcome.exited 0 out err →
        run_command w command = (true, pyStrip out))
      ∧ (∀ code out err, w command = CmdOutcome.exited code out err → code ≠ 0 →
        run_command w command = (false, pyStrip err))
      ∧ (∀ fn, w command = CmdOutcome.notFound fn →
        run_command w command = (false, "Command not found: " ++ fn))
      ∧ (∃ r : Bool × String, run_command w command = r) := by
  intro w command
  refine ⟨?_, ?_, ?_, ⟨_, rfl⟩⟩
  · intro out err h
    simp [run_command, h]
  · intro code out err h hc
    cases code with
    | zero => exact absurd rfl hc
    | succ n => simp [run_command, h]
  · intro fn h
    simp [run_command, h]

/-- Witness for C4 at the spec's own examples: exit 0 with stdout `"ok\n"`
gives `(true, "ok")`, exit 1 with stderr `"bad\n"` gives `(false, "bad")`,
and a missing binary gives the descriptive message. -/
theorem run_command_total_contract_witness :
    run_command (fun _ => CmdOutcome.exited 0 "ok\n" "") ["tool"] = (true, "ok")
    ∧ run_command (fun _ => CmdOutcome.exited 1 "" "bad\n") ["tool"] = (false, "bad")
    ∧ run_command (fun _ => CmdOutcome.notFound "tool") ["tool"]
        = (false, "Command not found: tool") := by
  refine ⟨?_, ?_, ?_⟩
  · have h := (run_command_total_contract (fun _ => CmdOutcome.exited 0 "ok\n" "") ["tool"]).1
      "ok\n" "" rfl
    rw [h]; decide
  · have h := (run_command_total_contract (fun _ => CmdOutcome.exited 1 "" "bad\n") ["tool"]).2.1
      1 "" "bad\n" rfl (by decide)
    rw [h]; decide
  · exact (run_command_total_contract (fun _ => CmdOutcome.notFound "tool") ["tool"]).2.2.1
      "tool" rfl

/-- Claim C9: killing a process that is not running is an already-achieved
no-op: playback control `stop`/`quit` returns its normal success response in
every world (in particular when no player process exists), and a `killall`
failure whose output contains "no process found" is absorbed — `kill_process`
returns normally with no error logged. -/
theorem playback_stop_absent_process_noop :
    (∀ (w : World) (command : PlayCmd),
       command = PlayCmd.stop ∨ command = PlayCmd.quit →
       (control_sound_playback w command).1
         = "Playback " ++ command.str ++ " command sent.")
    ∧ (∀ (w : World) (name : String) (code : Nat) (out err : String),
       w ["killall", name] = CmdOutcome.exited code out err → code ≠ 0 →
       hasSubstrS "no process found" (pyStrip err) = true →
       kill_process w name = (false, none)) := by
  constructor
  · intro w command _
    rfl
  · intro w name code out err h hc hin
    have hr : run_command w ["killall", name] = (false, pyStrip err) := by
      cases code with
      | zero => exact absurd rfl hc
      | succ n => simp [run_command, h]
    simp [kill_process, hr, hin]

/-- Witness for C9: with `killall` reporting "no process found", the stop
command still answers with its success message and no error is logged. -/
theorem playback_stop_absent_process_noop_witness :
    (control_sound_playback wNoProc PlayCmd.stop).1 = "Playback stop command sent."
    ∧ kill_process wNoProc "mplayer" = (false, none) := by
  constructor
  · have h := playback_stop_absent_process_noop.1 wNoProc PlayCmd.stop (Or.inl rfl)
    rw [h]; decide
  · exact playback_stop_absent_process_noop.2 wNoProc "mplayer" 1 ""
      "mplayer: no process found\n" rfl (by decide) (by decide)

/-- Claim C8: the TTS cache key is derived from the raw text alone — two
requests with the same text and different voices compute the identical cache
file path, and when the cache entry exists (and `nocache` is unset) the
request reuses it without regenerating (the filesystem is untouched), so the
two voices collide on one cache entry. -/
theorem tts_cache_key_ignores_voice :
    (∀ (text v1 v2 : String) (n1 n2 : Bool),
       tts_cache_path ⟨text, v1, n1⟩ = tts_cache_path ⟨text, v2, n2⟩)
    ∧ (∀ (w : World) (fs : FS) (request : TtsRequest),
       request.nocache = false → fs.existsFile (tts_cache_path request) = true →
       (generate_speech w fs request).2 = fs) := by
  constructor
  · intro text v1 v2 n1 n2
    rfl
  · intro w fs request hn he
    simp only [generate_speech, hn, he, Bool.not_true, Bool.false_or, Bool.false_eq_true,
      if_false]
    split <;> rfl

/-- Witness for C8: the same text under voices `alice` and `bob` maps to one
cache path, and with that entry present the `bob` request leaves the
filesystem unchanged (no regeneration). -/
theorem tts_cache_key_ignores_voice_witness :
    tts_cache_path ⟨"hi", "alice", false⟩ = tts_cache_path ⟨"hi", "bob", false⟩
    ∧ (generate_speech wQuiet
        (write_file_content emptyFS (tts_cache_path ⟨"hi", "bob", false⟩) "w")
        ⟨"hi", "bob", false⟩).2
      = write_file_content emptyFS (tts_cache_path ⟨"hi", "bob", false⟩) "w" := by
  constructor
  · exact tts_cache_key_ignores_voice.1 "hi" "alice" "bob" false false
  · exact tts_cache_key_ignores_voice.2 wQuiet _ ⟨"hi", "bob", false⟩ rfl (by decide)

/-- Claim C2: a LED action with both `pulse` and `blink` set is rejected
with the 400 validation error naming the conflict, for every caller: the
direct endpoint returns the 400 with the filesystem untouched, and the
batched dispatcher wraps the same message into an error envelope instead of
propagating the exception — again with the state (hence the `led.color`
file) unchanged. -/
theorem led_pulse_blink_conflict_rejected :
    (∀ (fs : FS) (action : LedAction), action.pulse = true → action.blink = true →
       set_led fs action =
         (Except.error ⟨400, "Cannot use 'blink' and 'pulse' at the same time."⟩, fs))
    ∧ (∀ (fs : FS) (p : Params) (c : String),
       p.color = some c → p.pulse = some true → p.blink = some true →
       execute_karotz_action fs ⟨some "leds.set", p⟩ =
         ({ action := some "leds.set", status := "error", data := none,
            details := some "Cannot use 'blink' and 'pulse' at the same time." }, fs)) := by
  constructor
  · intro fs action hp hb
    simp [set_led, hp, hb]
  · intro fs p c hc hp hb
    simp [execute_karotz_action, LedAction.ofParams, hc, hp, hb, set_led, errorResult]

/-- Witness for C2 at a concrete state and a concrete conflicting request. -/
theorem led_pulse_blink_conflict_rejected_witness :
    set_led fs0 { color := "FF0000", pulse := true, blink := true } =
      (Except.error ⟨400, "Cannot use 'blink' and 'pulse' at the same time."⟩, fs0)
    ∧ execute_karotz_action fs0
        ⟨some "leds.set", { color := some "FF0000", pulse := some true, blink := some true }⟩ =
      ({ action := some "leds.set", status := "error", data := none,
         details := some "Cannot use 'blink' and 'pulse' at the same time." }, fs0) := by
  constructor
  · exact led_pulse_blink_conflict_rejected.1 fs0
      { color := "FF0000", pulse := true, blink := true } rfl rfl
  · exact led_pulse_blink_conflict_rejected.2 fs0
      { color := some "FF0000", pulse := some true, blink := some true } "FF0000" rfl rfl rfl

/-! Helper lemmas about file removal, for the delete endpoint. -/

theorem find_filter_not (l : List (FPath × String)) (p : FPath) :
    (l.filter (fun e => !(e.1 == p))).find? (fun e => e.1 == p) = none := by
  induction l with
  | nil => rfl
  | cons a t ih =>
    by_cases h : a.1 == p
    · simp [List.filter_cons, h, ih]
    · simp only [List.filter_cons]
      simp only [h, Bool.not_false, if_true]
      simp [List.find?_cons, h, ih]

theorem find_none_of_filter (l : List (FPath × String)) (f : FPath × String → Bool)
    (q : FPath × String → Bool) (h : l.find? q = none) :
    (l.filter f).find? q = none := by
  induction l with
  | nil => rfl
  | cons a t ih =>
    by_cases hq : q a
    · rw [List.find?_cons_of_pos _ hq] at h
      exact absurd h (by simp)
    · rw [List.find?_cons_of_neg _ hq] at h
      by_cases hf : f a
      · rw [List.filter_cons_of_pos hf, List.find?_cons_of_neg _ hq]
        exact ih h
      · rw [List.filter_cons_of_neg hf]
        exact ih h

theorem lookup_removeFile_self (fs : FS) (p : FPath) :
    FS.lookupFile (fs.removeFile p) p = none := by
  simp [FS.lookupFile, FS.removeFile, find_filter_not]

theorem lookup_removeFile_none (fs : FS) (q p : FPath)
    (h : FS.lookupFile fs p = none) :
    FS.lookupFile (fs.removeFile q) p = none := by
  simp only [FS.lookupFile, FS.removeFile, Option.map_eq_none'] at h ⊢
  exact find_none_of_filter _ _ _ h

theorem lookup_removeIfExists_self (fs : FS) (p : FPath) :
    FS.lookupFile (removeIfExists fs p) p = none := by
  unfold removeIfExists
  by_cases h : fs.existsFile p
  · simp [h, lookup_removeFile_self]
  · rw [if_neg h]
    exact Option.not_isSome_iff_eq_none.mp h

theorem lookup_removeIfExists_none (fs : FS) (q p : FPath)
    (h : FS.lookupFile fs p = none) :
    FS.lookupFile (removeIfExists fs q) p = none := by
  unfold removeIfExists
  by_cases hq : fs.existsFile q
  · simp [hq, lookup_removeFile_none _ _ _ h]
  · simpa [hq] using h

theorem removeIfExists_absent (fs : FS) (p : FPath)
    (h : FS.lookupFile fs p = none) :
    removeIfExists fs p = fs := by
  unfold removeIfExists
  simp [FS.existsFile, h]

/-- Claim C6: the RFID delete operation removes every present sibling file
(`.rfid`, `.name`, `.color`) of the tag, and is idempotent — deleting the
same tag twice yields the same filesystem state and the same success
response both times (the second call does not error on the already-absent
files). -/
theorem rfid_delete_removes_and_idempotent :
    ∀ (fs : FS) (tag_id : String),
      FS.lookupFile (unassign_and_delete_tag fs tag_id).2 (RFID_DIR, tag_id ++ ".rfid") = none
      ∧ FS.lookupFile (unassign_and_delete_tag fs tag_id).2 (RFID_DIR, tag_id ++ ".name") = none
      ∧ FS.lookupFile (unassign_and_delete_tag fs tag_id).2 (RFID_DIR, tag_id ++ ".color") = none
      ∧ unassign_and_delete_tag (unassign_and_delete_tag fs tag_id).2 tag_id
          = unassign_and_delete_tag fs tag_id := by
  intro fs tag_id
  have e : ∀ g : FS, unassign_and_delete_tag g tag_id
      = ("Tag " ++ tag_id ++ " has been deleted.",
         removeIfExists (removeIfExists (removeIfExists g (RFID_DIR, tag_id ++ ".rfid"))
           (RFID_DIR, tag_id ++ ".name")) (RFID_DIR, tag_id ++ ".color")) :=
    fun _ => rfl
  simp only [e]
  set p1 : FPath := (RFID_DIR, tag_id ++ ".rfid") with hp1
  set p2 : FPath := (RFID_DIR, tag_id ++ ".name") with hp2
  set p3 : FPath := (RFID_DIR, tag_id ++ ".color") with hp3
  set D := removeIfExists (removeIfExists (removeIfExists fs p1) p2) p3 with hD
  have h1 : FS.lookupFile D p1 = none := by
    apply lookup_removeIfExists_none
    apply lookup_removeIfExists_none
    exact lookup_removeIfExists_self fs p1
  have h2 : FS.lookupFile D p2 = none := by
    apply lookup_removeIfExists_none
    exact lookup_removeIfExists_self _ p2
  have h3 : FS.lookupFile D p3 = none := lookup_removeIfExists_self _ p3
  refine ⟨h1, h2, h3, ?_⟩
  rw [removeIfExists_absent D p1 h1, removeIfExists_absent D p2 h2,
    removeIfExists_absent D p3 h3]

/-! Helper lemmas about reads of the `.rfid` file. -/

theorem get_file_content_none (fs : FS) (p : FPath) :
    get_file_content fs p none = (fs.lookupFile p).map pyStrip := by
  unfold get_file_content FS.existsFile
  cases h : fs.lookupFile p <;> simp [h]

theorem lookup_write_self (fs : FS) (p : FPath) (v : String) :
    FS.lookupFile (write_file_content fs p v) p = some v := by
  unfold FS.lookupFile write_file_content
  rw [List.find?_cons_of_pos _ (by simp)]
  rfl

theorem pyStartsWith_http_ne_empty (s : String) (h : pyStartsWith s "http" = true) :
    s ≠ "" := by
  intro he
  subst he
  exact absurd h (by decide)

/-- Claim C10: the listing projection only ever reports `action_type = "url"`
(exactly when the stored `.rfid` contents exist and start with `"http"`) or
`"karotz_action"` (in every other case, including an absent file); in
particular, assigning with any declared type (e.g. `eedomus`) is reported
back purely by this content test, so the declared type is not preserved. -/
theorem rfid_listing_action_type_invariant :
    ∀ (fs : FS) (tag_id : String),
      ((parse_rfid_file fs tag_id).action_type = some "url"
        ∨ (parse_rfid_file fs tag_id).action_type = some "karotz_action")
      ∧ ((parse_rfid_file fs tag_id).action_type = some "url" ↔
          ∃ raw, FS.lookupFile fs (RFID_DIR, tag_id ++ ".rfid") = some raw
            ∧ pyStartsWith (pyStrip raw) "http" = true)
      ∧ (∀ asg : RfidAssignment,
          (parse_rfid_file (assign_action_to_tag fs tag_id asg).2 tag_id).action_type
            = some (if pyStartsWith (pyStrip asg.value) "http" = true then "url"
                    else "karotz_action")) := by
  intro fs tag_id
  have hassign : ∀ asg : RfidAssignment,
      (parse_rfid_file (assign_action_to_tag fs tag_id asg).2 tag_id).action_type
        = some (if pyStartsWith (pyStrip asg.value) "http" = true then "url"
                else "karotz_action") := by
    intro asg
    have hl : FS.lookupFile (assign_action_to_tag fs tag_id asg).2
        (RFID_DIR, tag_id ++ ".rfid") = some asg.value :=
      lookup_write_self fs (RFID_DIR, tag_id ++ ".rfid") asg.value
    by_cases hs : pyStartsWith (pyStrip asg.value) "http" = true
    · have hne := pyStartsWith_http_ne_empty _ hs
      simp [parse_rfid_file, get_file_content_none, hl, pyTruthy, optStartsWithHttp, hs, hne]
    · simp [parse_rfid_file, get_file_content_none, hl, pyTruthy, optStartsWithHttp, hs]
  cases h : fs.lookupFile (RFID_DIR, tag_id ++ ".rfid") with
  | none =>
    have ht : (parse_rfid_file fs tag_id).action_type = some "karotz_action" := by
      simp [parse_rfid_file, get_file_content_none, h, pyTruthy]
    refine ⟨Or.inr ht, ?_, hassign⟩
    rw [ht]
    constructor
    · intro hh
      exact absurd hh (by decide)
    · rintro ⟨raw, hr, _⟩
      exact absurd hr (by simp)
  | some raw =>
    by_cases hs : pyStartsWith (pyStrip raw) "http" = true
    · have hne := pyStartsWith_http_ne_empty _ hs
      have ht : (parse_rfid_file fs tag_id).action_type = some "url" := by
        simp [parse_rfid_file, get_file_content_none, h, pyTruthy, optStartsWithHttp, hs, hne]
      exact ⟨Or.inl ht, by rw [ht]; exact ⟨fun _ => ⟨raw, rfl, hs⟩, fun _ => rfl⟩, hassign⟩
    · have ht : (parse_rfid_file fs tag_id).action_type = some "karotz_action" := by
        simp [parse_rfid_file, get_file_content_none, h, pyTruthy, optStartsWithHttp, hs]
      refine ⟨Or.inr ht, ?_, hassign⟩
      rw [ht]
      constructor
      · intro hh
        exact absurd hh (by decide)
      · rintro ⟨raw', hr', hs'⟩
        cases Option.some.inj hr'
        exact absurd hs' hs

/-- Witness for C10: on a tag assigned with declared type `eedomus` and a
non-URL value, the listing still reports one of the two projection types —
concretely `karotz_action`, not `eedomus`. -/
theorem rfid_listing_action_type_invariant_witness :
    ((parse_rfid_file (assign_action_to_tag emptyFS "0123ABCD"
        ⟨AssignType.eedomus, "periph.caract", none⟩).2 "0123ABCD").action_type = some "url"
      ∨ (parse_rfid_file (assign_action_to_tag emptyFS "0123ABCD"
        ⟨AssignType.eedomus, "periph.caract", none⟩).2 "0123ABCD").action_type
          = some "karotz_action")
    ∧ (parse_rfid_file (assign_action_to_tag emptyFS "0123ABCD"
        ⟨AssignType.eedomus, "periph.caract", none⟩).2 "0123ABCD").action_type
        = some "karotz_action" := by
  constructor
  · exact (rfid_listing_action_type_invariant
      (assign_action_to_tag emptyFS "0123ABCD" ⟨AssignType.eedomus, "periph.caract", none⟩).2
      "0123ABCD").1
  · have h := (rfid_listing_action_type_invariant emptyFS "0123ABCD").2.2
      ⟨AssignType.eedomus, "periph.caract", none⟩
    rw [h]
    decide

/-! Helper lemmas about the `.rfid`-extension handling of the listing. -/

theorem stripRfid_cons_ne (c : Char) (cs : List Char) (h : c ≠ '.') :
    stripRfid (c :: cs) = c :: stripRfid cs := by
  rw [stripRfid.eq_def]
  split
  · next rest heq =>
    cases heq
    exact absurd rfl h
  · next c' cs' hnomatch heq =>
    cases heq
    rfl
  · next heq =>
    simp at heq

theorem stripRfid_no_dot_append (l : List Char) (h : ∀ c ∈ l, c ≠ '.') :
    stripRfid (l ++ rfidExt) = l := by
  induction l with
  | nil => decide
  | cons c cs ih =>
    have hc : c ≠ '.' := h c (List.mem_cons_self c cs)
    have ih' := ih (fun d hd => h d (List.mem_cons_of_mem c hd))
    rw [List.cons_append, stripRfid_cons_ne c _ hc, ih']

/-- For a dot-free tag id, Python's replace-all of `".rfid"` on
`id + ".rfid"` recovers exactly the id (every occurrence of the pattern
starts at a `'.'`, and the only dot is the one of the appended extension). -/
theorem stripRfidS_append (s : String) (h : s.data.all (fun c => c != '.') = true) :
    stripRfidS (s ++ ".rfid") = s := by
  unfold stripRfidS
  rw [String.data_append]
  have hd : ∀ c ∈ s.data, c ≠ '.' := by
    intro c hc
    simpa using List.all_eq_true.mp h c hc
  have he : (".rfid".data : List Char) = rfidExt := by decide
  rw [he, stripRfid_no_dot_append s.data hd]

theorem pyEndsWith_rfid (s : String) : pyEndsWith (s ++ ".rfid") ".rfid" = true := by
  unfold pyEndsWith
  rw [String.data_append]
  simp [List.isSuffixOf_iff_suffix]

/-- Claim C7: assign-then-list round-trip.  For every tag id without a dot
in it (tag ids are hexadecimal strings such as `"0123ABCD"`; ids containing
`"."` interact with the listing's replace-all of the `.rfid` extension) and
every assignment whose value is strip-invariant (file reads strip
whitespace), assigning and then listing produces an entry for that tag id
whose action fields carry the just-assigned value, classified as
`action_url` when the value starts with `"http"` and as `karotz_action`
otherwise. -/
theorem rfid_assign_then_list_roundtrip :
    ∀ (fs : FS) (tag_id : String) (asg : RfidAssignment),
      tag_id.data.all (fun c => c != '.') = true →
      pyStrip asg.value = asg.value →
      ∃ t ∈ list_rfid_tags (assign_action_to_tag fs tag_id asg).2,
        t.tag_id = tag_id
        ∧ (pyStartsWith asg.value "http" = true →
            t.action_type = some "url" ∧ t.action_url = some asg.value)
        ∧ (pyStartsWith asg.value "http" = false →
            t.action_type = some "karotz_action" ∧ t.karotz_action = some asg.value) := by
  intro fs tag_id asg hdot hstrip
  have hfiles : (assign_action_to_tag fs tag_id asg).2.files
      = ((RFID_DIR, tag_id ++ ".rfid"), asg.value)
        :: fs.files.filter (fun e => !(e.1 == (RFID_DIR, tag_id ++ ".rfid"))) := rfl
  have hdir : ((assign_action_to_tag fs tag_id asg).2.isDir RFID_DIR) = true := by
    show (write_file_content fs (RFID_DIR, tag_id ++ ".rfid") asg.value).isDir RFID_DIR = true
    unfold write_file_content FS.isDir
    by_cases hd : fs.dirs.contains RFID_DIR = true
    · simp only [hd, if_true]
    · simp only [hd, if_false, Bool.false_eq_true]
      simp [List.contains_cons]
  have hl : (assign_action_to_tag fs tag_id asg).2.lookupFile (RFID_DIR, tag_id ++ ".rfid")
      = some asg.value := lookup_write_self fs (RFID_DIR, tag_id ++ ".rfid") asg.value
  have hmem1 : (tag_id ++ ".rfid") ∈ (assign_action_to_tag fs tag_id asg).2.listdir RFID_DIR := by
    unfold FS.listdir
    rw [hfiles, List.filter_cons_of_pos (by simp), List.map_cons]
    exact List.mem_cons_self _ _
  have hmem2 : stripRfidS (tag_id ++ ".rfid")
      ∈ (((assign_action_to_tag fs tag_id asg).2.listdir RFID_DIR).filter
          (fun f => pyEndsWith f ".rfid")).map stripRfidS :=
    List.mem_map_of_mem stripRfidS
      (List.mem_filter.mpr ⟨hmem1, pyEndsWith_rfid tag_id⟩)
  rw [stripRfidS_append tag_id hdot] at hmem2
  have hmem3 : parse_rfid_file (assign_action_to_tag fs tag_id asg).2 tag_id
      ∈ list_rfid_tags (assign_action_to_tag fs tag_id asg).2 := by
    unfold list_rfid_tags
    rw [hdir]
    simp only [Bool.not_true, Bool.false_eq_true, if_false]
    exact List.mem_map_of_mem _ hmem2
  refine ⟨parse_rfid_file (assign_action_to_tag fs tag_id asg).2 tag_id, hmem3, ?_, ?_, ?_⟩
  · rfl
  · intro hsw
    have hne : asg.value ≠ "" := pyStartsWith_http_ne_empty asg.value hsw
    constructor <;>
      simp [parse_rfid_file, get_file_content_none, hl, hstrip, pyTruthy,
        optStartsWithHttp, hsw, hne]
  · intro hsw
    constructor <;>
      simp [parse_rfid_file, get_file_content_none, hl, hstrip, pyTruthy,
        optStartsWithHttp, hsw]

/-- Witness for C7 at the spec's example tag id with an URL assignment. -/
theorem rfid_assign_then_list_roundtrip_witness :
    ∃ t ∈ list_rfid_tags (assign_action_to_tag emptyFS "0123ABCD"
        ⟨AssignType.url, "http://example.com/x", none⟩).2,
      t.tag_id = "0123ABCD"
      ∧ (pyStartsWith "http://example.com/x" "http" = true →
          t.action_type = some "url" ∧ t.action_url = some "http://example.com/x")
      ∧ (pyStartsWith "http://example.com/x" "http" = false →
          t.action_type = some "karotz_action"
            ∧ t.karotz_action = some "http://example.com/x") :=
  rfid_assign_then_list_roundtrip emptyFS "0123ABCD"
    ⟨AssignType.url, "http://example.com/x", none⟩ (by decide) (by decide)

/-- A `set_led` call that raises leaves the filesystem unchanged (the 400 is
raised before the `led.color` write). -/
theorem set_led_error_state (fs : FS) (a : LedAction) (e : HttpExc) (fs' : FS)
    (h : set_led fs a = (Except.error e, fs')) : fs' = fs := by
  unfold set_led at h
  split at h
  · injection h with h1 h2
    exact h2.symm
  · injection h with h1 h2
    simp at h1

/-- Claim C1: the batched dispatcher handles the actions sequentially in
the order given and returns exactly one result envelope per action, in
submission order (the i-th envelope is the execution of the i-th action in
the state produced by the first i actions); an error result leaves the
state unchanged, so it never prevents, skips or alters a later action; an
unknown action type yields the "Unknown action type: <type>" error
envelope; and on the spec's example batch the bogus middle action yields
exactly [success, error, success]. -/
theorem mcp_batch_sequential_in_order :
    (∀ (fs : FS) (actions : List ActionData),
       (handle_mcp_request fs actions).1.length = actions.length)
    ∧ (∀ (fs : FS) (actions : List ActionData) (i : Nat),
       ((handle_mcp_request fs actions).1)[i]?
         = (actions[i]?).map
             (fun a => (execute_karotz_action (mcp_state_after fs (actions.take i)) a).1))
    ∧ (∀ (fs : FS) (a : ActionData),
       (execute_karotz_action fs a).1.status = "error" →
       (execute_karotz_action fs a).2 = fs)
    ∧ (∀ (fs : FS) (p : Params) (t : String),
       t ≠ "status.get" → t ≠ "leds.set" → t ≠ "ears.set" →
       t ≠ "device.reboot" → t ≠ "device.sleep" →
       execute_karotz_action fs ⟨some t, p⟩
         = ({ action := some t, status := "error", data := none,
              details := some ("Unknown action type: " ++ t) }, fs))
    ∧ ((handle_mcp_request fs0 exampleBatch).1.map (fun r => (r.action, r.status, r.details))
         = [(some "status.get", "success", none),
            (some "bogus", "error", some "Unknown action type: bogus"),
            (some "device.sleep", "success", none)]) := by
  refine ⟨?_, ?_, ?_, ?_, ?_⟩
  · intro fs actions
    induction actions generalizing fs with
    | nil => rfl
    | cons a rest ih => simp [handle_mcp_request, ih]
  · intro fs actions i
    induction actions generalizing fs i with
    | nil => simp [handle_mcp_request]
    | cons a rest ih =>
      cases i with
      | zero => simp [handle_mcp_request, mcp_state_after]
      | succ n =>
        simp only [handle_mcp_request, List.getElem?_cons_succ, List.take_succ_cons]
        rw [ih]
        rfl
  · intro fs a
    by_cases h1 : a.type = some "status.get"
    · cases hm : main_get_status fs <;>
        simp [execute_karotz_action, h1, hm, successResult, errorResult]
    · by_cases h2 : a.type = some "leds.set"
      · cases hp : LedAction.ofParams a.params with
        | error e => simp [execute_karotz_action, h1, h2, hp, errorResult]
        | ok la =>
          cases hl : set_led fs la with
          | mk r fs' =>
            cases r with
            | ok resp => simp [execute_karotz_action, h1, h2, hp, hl, successResult]
            | error e =>
              have hst := set_led_error_state fs la e fs' hl
              simp [execute_karotz_action, h1, h2, hp, hl, errorResult, hst]
      · by_cases h3 : a.type = some "ears.set"
        · simp [execute_karotz_action, h1, h2, h3, set_ears, successResult]
        · by_cases h4 : a.type = some "device.reboot"
          · simp [execute_karotz_action, h1, h2, h3, h4, reboot_device, successResult]
          · by_cases h5 : a.type = some "device.sleep"
            · simp [execute_karotz_action, h1, h2, h3, h4, h5, sleep_device, successResult]
            · simp [execute_karotz_action, h1, h2, h3, h4, h5, errorResult]
  · intro fs p t h1 h2 h3 h4 h5
    simp [execute_karotz_action, h1, h2, h3, h4, h5, errorResult, optTypeStr]
  · decide

/-- Witness for C1: the values of the quantified conjuncts on the concrete
example batch. -/
theorem mcp_batch_sequential_in_order_witness :
    (handle_mcp_request fs0 exampleBatch).1.length = exampleBatch.length
    ∧ ((handle_mcp_request fs0 exampleBatch).1)[1]?
        = (exampleBatch[1]?).map
            (fun a => (execute_karotz_action (mcp_state_after fs0 (exampleBatch.take 1)) a).1)
    ∧ (execute_karotz_action fs0 ⟨some "bogus", noParams⟩).2 = fs0
    ∧ execute_karotz_action fs0 ⟨some "bogus", noParams⟩
        = ({ action := some "bogus", status := "error", data := none,
             details := some ("Unknown action type: " ++ "bogus") }, fs0) :=
  ⟨mcp_batch_sequential_in_order.1 fs0 exampleBatch,
   mcp_batch_sequential_in_order.2.1 fs0 exampleBatch 1,
   mcp_batch_sequential_in_order.2.2.1 fs0 ⟨some "bogus", noParams⟩ (by decide),
   mcp_batch_sequential_in_order.2.2.2.1 fs0 noParams "bogus"
     (by decide) (by decide) (by decide) (by decide) (by decide)⟩

/-- When every `df` invocation fails, both disk-usage queries degrade to the
sentinels without raising. -/
theorem get_disk_usage_dffail (w : World) (fs : FS) (path : String)
    (hw : ∀ args, w ("df" :: args) = CmdOutcome.exited 1 "" "") :
    get_disk_usage w fs path = .ok (-1, "-1") := by
  unfold get_disk_usage
  split
  · rfl
  · have h1 : run_command w ["df", path] = (false, pyStrip "") := by
      have hx := hw [path]
      simp [run_command, hx]
    have h2 : run_command w ["df", "-Ph", path] = (false, pyStrip "") := by
      have hx := hw ["-Ph", path]
      simp [run_command, hx]
    simp [h1, h2]

/-- Counterexample to claim C3 as stated: in a state whose only defect is
non-numeric content (`"abc"`) in the sleep-time file — `df` succeeds with
well-formed output, and the same state with a numeric sleep file yields a
full status — the aggregator does not degrade field-by-field: the whole
status request fails with the single 500 error and no other field is
produced. -/
theorem status_single_field_failure_aborts_all :
    get_file_contentD fsBad KAROTZ_TIME_SLEEP_FILE "0" = "abc"
    ∧ system_get_status wGood fsBad = .error ⟨500, "Failed to retrieve system status."⟩
    ∧ (∃ s, system_get_status wGood fs0 = .ok s) :=
  ⟨by decide, by decide, ⟨_, rfl⟩⟩

/-- Claim C3 (amended): a failed `df` command degrades field-by-field — the
storage fields fall back to their sentinels while every other field is still
produced — but an exception inside a field computation (e.g. non-numeric
content in the sleep-time file) aborts the whole status request, surfacing
as the single 500 error. -/
theorem status_aggregation_failure_policy :
    (∀ (w : World) (fs : FS) (n : Int),
       (∀ args, w ("df" :: args) = CmdOutcome.exited 1 "" "") →
       pyInt? (get_file_contentD fs KAROTZ_TIME_SLEEP_FILE "0") = some n →
       ∃ s, system_get_status w fs = .ok s
         ∧ s.storage_karotz_used_percent = -1
         ∧ s.storage_usb_used_percent = -1
         ∧ s.storage_karotz_free_space = "-1"
         ∧ s.storage_usb_free_space = "-1"
         ∧ s.sleep_time_remaining = n
         ∧ s.version = get_file_contentD fs OK_VERSION_FILE "0")
    ∧ (∀ (w : World) (fs : FS),
       pyInt? (get_file_contentD fs KAROTZ_TIME_SLEEP_FILE "0") = none →
       system_get_status w fs = .error ⟨500, "Failed to retrieve system status."⟩) := by
  constructor
  · intro w fs n hw hn
    have h1 := get_disk_usage_dffail w fs "/usr" hw
    have h2 := get_disk_usage_dffail w fs "/mnt/usbkey" hw
    unfold system_get_status system_get_status_body
    rw [h1, h2]
    simp only [Bind.bind, Except.bind, hn]
    exact ⟨_, rfl, rfl, rfl, rfl, rfl, rfl, rfl⟩
  · intro w fs hn
    unfold system_get_status system_get_status_body
    cases hg1 : get_disk_usage w fs "/usr" with
    | error e => simp [Bind.bind, Except.bind, hg1]
    | ok ku =>
      cases hg2 : get_disk_usage w fs "/mnt/usbkey" with
      | error e => simp [Bind.bind, Except.bind, hg1, hg2]
      | ok uu => simp [Bind.bind, Except.bind, hg1, hg2, hn]

/-- Witness for the amended C3: with failing `df` and the numeric sleep file
the status succeeds with sentinel storage fields; with the non-numeric sleep
file the whole request is the single 500. -/
theorem status_aggregation_failure_policy_witness :
    (∃ s, system_get_status wDfFail fs0 = .ok s
       ∧ s.storage_karotz_used_percent = -1
       ∧ s.storage_usb_used_percent = -1
       ∧ s.storage_karotz_free_space = "-1"
       ∧ s.storage_usb_free_space = "-1"
       ∧ s.sleep_time_remaining = 120
       ∧ s.version = get_file_contentD fs0 OK_VERSION_FILE "0")
    ∧ system_get_status wDfFail fsBad = .error ⟨500, "Failed to retrieve system status."⟩ :=
  ⟨status_aggregation_failure_policy.1 wDfFail fs0 120 (fun _ => rfl) (by decide),
   status_aggregation_failure_policy.2 wDfFail fsBad (by decide)⟩

/-- Counterexample to claim C5 as stated: with `/mnt/usbkey` present as a
directory but not mounted (the usual shape of an unused mount point), the
router's status aggregator reports the underlying filesystem's `df`
statistics for the removable-storage fields instead of the `-1` sentinels. -/
theorem usb_unmounted_sentinel_counterexample :
    FS.isMount fsU "/mnt/usbkey" = false
    ∧ (∃ s, system_get_status wGood fsU = .ok s
        ∧ s.storage_usb_used_percent = 50
        ∧ s.storage_usb_free_space = "50M") :=
  ⟨by decide, ⟨_, rfl, rfl, rfl⟩⟩

/-- Claim C5 (amended): `main.py`'s aggregator reports the `-1` sentinels
for the removable-storage fields whenever `/mnt/usbkey` is not a mount
point, with all other fields still produced; the router's `get_disk_usage`
returns the sentinels only when the path is neither a mount point nor an
existing directory (when the unmounted directory exists, `df` statistics of
the underlying filesystem are reported instead, as the counterexample
shows). -/
theorem usb_unmounted_sentinel_amended :
    (∀ (fs : FS) (free total : Nat),
       fs.isMount "/mnt/usbkey" = false →
       fs.statvfs "/usr" = some (free, total) →
       ∃ s, main_get_status fs = .ok s
         ∧ s.usb_free_space = "-1" ∧ s.usb_percent_used_space = "-1")
    ∧ (∀ (w : World) (fs : FS) (path : String),
       fs.isMount path = false → fs.isDir path = false →
       get_disk_usage w fs path = .ok (-1, "-1")) := by
  constructor
  · intro fs free total hm hs
    unfold main_get_status
    rw [hs]
    simp only [hm, Bool.false_eq_true, if_false]
    exact ⟨_, rfl, rfl, rfl⟩
  · intro w fs path hm hd
    unfold get_disk_usage
    rw [if_pos (by simp [hm, hd])]

/-- Witness for the amended C5 on concrete states. -/
theorem usb_unmounted_sentinel_amended_witness :
    (∃ s, main_get_status fsU = .ok s
       ∧ s.usb_free_space = "-1" ∧ s.usb_percent_used_space = "-1")
    ∧ get_disk_usage wGood fs0 "/mnt/usbkey" = .ok (-1, "-1") :=
  ⟨usb_unmounted_sentinel_amended.1 fsU 1048576 2097152 (by decide) rfl,
   usb_unmounted_sentinel_amended.2 wGood fs0 "/mnt/usbkey" (by decide) (by decide)⟩
